import Mathlib

/-!
Verification development for the ratmap RTMP chunk-stream core.

The definitions below are a shallow embedding of the Rust sources:
  * `src/chunk/header/basic.rs`   — basic-header / chunk-stream-id codec
  * `src/chunk/header/message.rs` — message-header codec
  * `src/chunk/header/mod.rs`     — `Header` assembly, constructors, size
  * `src/chunk/mod.rs`            — `ChunkStreamInformation` / map
  * `src/chunk/handshake.rs`      — RTMP handshake
  * `src/chunk/impls/tokio.rs`    — `write_chunk` transport loop

Bit streams are `List Bool`, most significant bit first (deku's `Msb0`
order); bytes are `Nat` values below 256.  Machine-integer arithmetic from
Rust is made explicit with `% 2^32` and `% 256` where overflow, wrapping or
`as u8` truncation can occur.  Release-profile (wrapping) semantics is used
for the two `u32` subtractions that can underflow; comments mark the spots.
-/

deriving instance DecidableEq for Except

/-- 2^32, the modulus of Rust's `u32`. -/
def U32_MOD : Nat := 4294967296

/-- Little-endian list of the `w` low bits of `n` (bit 0 first). -/
def natBitsLE : Nat → Nat → List Bool
  | 0, _ => []
  | w + 1, n => (n % 2 == 1) :: natBitsLE w (n / 2)

/-- `w`-bit big-endian (MSB-first) bit pattern of `n % 2^w`. -/
def natToBits (w n : Nat) : List Bool := (natBitsLE w n).reverse

/-- Value of an MSB-first bit string. -/
def bitsToNat (bits : List Bool) : Nat :=
  bits.foldl (fun acc b => 2 * acc + (if b then 1 else 0)) 0

/-- The eight bits of one byte, MSB first. -/
def byteToBits (b : Nat) : List Bool := natToBits 8 b

/-- A byte sequence as a bit stream. -/
def bytesToBits (bs : List Nat) : List Bool := (bs.map byteToBits).flatten

/-- The three big-endian bytes of `n`'s low 24 bits (deku `bytes = 3`). -/
def be24Bytes (n : Nat) : List Nat := [n / 65536 % 256, n / 256 % 256, n % 256]

/-- The four big-endian bytes of `n`'s low 32 bits. -/
def be32Bytes (n : Nat) : List Nat :=
  [n / 16777216 % 256, n / 65536 % 256, n / 256 % 256, n % 256]

/-- The four little-endian bytes of `n`'s low 32 bits. -/
def le32Bytes (n : Nat) : List Nat :=
  [n % 256, n / 256 % 256, n / 65536 % 256, n / 16777216 % 256]

/-- Errors surfaced by deku-style readers (`DekuError` in the source; only
the shapes the embedded code can produce are modelled). -/
inductive DekuErr
  | Incomplete
  | Parse
deriving DecidableEq

/-- Read one byte (8 bits) from a bit stream: `u8::read` in deku. -/
def readU8Bits (input : List Bool) : Except DekuErr (List Bool × Nat) :=
  if input.length < 8 then .error .Incomplete
  else .ok (input.drop 8, bitsToNat (input.take 8))

/-- Read an `nbits`-wide big-endian field from a bit stream. -/
def readBE (nbits : Nat) (input : List Bool) : Except DekuErr (List Bool × Nat) :=
  if input.length < nbits then .error .Incomplete
  else .ok (input.drop nbits, bitsToNat (input.take nbits))

/-- Read a little-endian `u32` (deku `endian = "little"`): four bytes,
least significant byte first. -/
def readLE32 (input : List Bool) : Except DekuErr (List Bool × Nat) :=
  if input.length < 32 then .error .Incomplete
  else
    let bs := input.take 32
    let b0 := bitsToNat (bs.take 8)
    let b1 := bitsToNat ((bs.drop 8).take 8)
    let b2 := bitsToNat ((bs.drop 16).take 8)
    let b3 := bitsToNat ((bs.drop 24).take 8)
    .ok (input.drop 32, b0 + 256 * (b1 + 256 * (b2 + 256 * b3)))

/-- `input.leading_zeros()` on a deku bit slice: number of leading clear
bits (the whole length when every bit is clear). -/
def leadingZeros : List Bool → Nat
  | [] => 0
  | b :: rest => if b then 0 else leadingZeros rest + 1

/-- The two validation errors of the chunk-stream-id codec.  The codec in
`basic.rs` reports them as `DekuError::InvalidParam` with fixed messages;
`header/mod.rs` names the refactored error type `ChunkStreamIdTryFromError`
and the spec names the cases `ReservedCsid` and `CsidTooLarge`. -/
inductive ChunkStreamIdTryFromError
  | ReservedCsid
  | CsidTooLarge
deriving DecidableEq

namespace ChunkStreamId

/-- `ChunkStreamId::write` from `basic.rs`, first stage: the byte vector
built by the `match self.0` arms.  `(remainder - 64) as u8` is a `u32`
subtraction followed by `as u8`; with release-profile wrapping semantics
that is `(remainder + (2^32 - 64)) % 2^32 % 256` (debug builds panic on the
underflow when `remainder < 64`).  `((self.0 - remainder) / 256) as u8`
likewise truncates with `% 256`. -/
def writeBytes (csid : Nat) : Except ChunkStreamIdTryFromError (List Nat) :=
  if 2 ≤ csid ∧ csid ≤ 63 then
    .ok [csid % 256]
  else if 64 ≤ csid ∧ csid ≤ 319 then
    .ok [0, (csid - 64) % 256]
  else if 320 ≤ csid ∧ csid ≤ 65599 then
    let remainder := csid % 256
    let second_byte := (remainder + (U32_MOD - 64)) % U32_MOD % 256
    let third_byte := (csid - remainder) / 256 % 256
    .ok [1, second_byte, third_byte]
  else if csid = 0 ∨ csid = 1 then
    .error .ReservedCsid
  else
    .error .CsidTooLarge

/-- `ChunkStreamId::write`, second stage: the bits appended to the output
are `bits[2..]` of the byte vector (the first two bits are skipped; the
2-bit chunk type written by `BasicHeader` occupies them). -/
def write (csid : Nat) : Except ChunkStreamIdTryFromError (List Bool) :=
  (writeBytes csid).map (fun bs => (bytesToBits bs).drop 2)

/-- `ChunkStreamId::read` from `basic.rs`.  The input starts right after
the 2-bit chunk type.  `input.leading_zeros()` is computed over the whole
remaining stream, and the three match arms are `6 =>` two-byte form,
`5 =>` three-byte form, `_ =>` one-byte form (first six bits, zero-padded
to a byte). -/
def read (input : List Bool) : Except DekuErr (List Bool × Nat) :=
  match leadingZeros input with
  | 6 => do
    let (rest, minus_64) ← readU8Bits (input.drop 6)
    .ok (rest, minus_64 + 64)
  | 5 => do
    let (third_byte_input, second_byte) ← readU8Bits (input.drop 6)
    let (rest, third_byte) ← readU8Bits third_byte_input
    .ok (rest, third_byte * 256 + second_byte + 64)
  | _ =>
    if input.length < 6 then .error .Incomplete
    else .ok (input.drop 6, bitsToNat (input.take 6))

/-- Composition the spec's CSID bijection speaks about: encode `csid`,
then decode the resulting bits; `none` when either direction fails. -/
def decodeEncode (csid : Nat) : Option Nat :=
  match write csid with
  | .error _ => none
  | .ok bits =>
    match read bits with
    | .error _ => none
    | .ok (_, c) => some c

end ChunkStreamId

/-- `BasicHeader` from `header/basic.rs` / `header/mod.rs`: the 2-bit chunk
type (`message_header_type` in `basic.rs`, `chunk_type` in `header/mod.rs`,
which postdates it) and the chunk stream id. -/
structure BasicHeader where
  chunk_type : Nat
  chunk_stream_id : Nat
deriving DecidableEq

namespace BasicHeader

/-- Derived `DekuRead` for `BasicHeader`: 2 bits of chunk type, then
`ChunkStreamId::read`. -/
def read (input : List Bool) : Except DekuErr (List Bool × BasicHeader) :=
  if input.length < 2 then .error .Incomplete
  else do
    let t := bitsToNat (input.take 2)
    let (rest, csid) ← ChunkStreamId.read (input.drop 2)
    .ok (rest, ⟨t, csid⟩)

/-- Derived `DekuWrite` for `BasicHeader`: 2 bits of chunk type, then
`ChunkStreamId::write`. -/
def write (bh : BasicHeader) : Except ChunkStreamIdTryFromError (List Bool) :=
  (ChunkStreamId.write bh.chunk_stream_id).map
    (fun csidBits => natToBits 2 bh.chunk_type ++ csidBits)

/-- Modelled from the spec: `BasicHeader::size` is called by
`Header::size` in `header/mod.rs` but its definition is absent from `src/`
(the refactored `basic.rs` is missing).  Spec §4.2: the encoding takes
1 byte for csid 2–63, 2 bytes for 64–319, 3 bytes for 320–65599. -/
def size (bh : BasicHeader) : Nat :=
  if bh.chunk_stream_id ≤ 63 then 1
  else if bh.chunk_stream_id ≤ 319 then 2
  else 3

/-- Modelled from the spec: the refactored `BasicHeader` constructors
(`begin_or_rewind_stream`, `begin_variable_length_message`,
`begin_constant_length_message`, `continue_message`) called by the
`Header` constructors in `header/mod.rs` are absent from `src/`.  They
build the basic header for the given chunk type after validating the
chunk stream id per spec §4.2: 0 and 1 are reserved (`ReservedCsid`),
ids above 65599 are unencodable (`CsidTooLarge`). -/
def try_new (chunk_type csid : Nat) : Except ChunkStreamIdTryFromError BasicHeader :=
  if csid = 0 ∨ csid = 1 then .error .ReservedCsid
  else if 65599 < csid then .error .CsidTooLarge
  else .ok ⟨chunk_type, csid⟩

/-- Modelled from the spec: see `BasicHeader.try_new`. -/
def begin_or_rewind_stream (csid : Nat) : Except ChunkStreamIdTryFromError BasicHeader :=
  try_new 0 csid

/-- Modelled from the spec: see `BasicHeader.try_new`. -/
def begin_variable_length_message (csid : Nat) : Except ChunkStreamIdTryFromError BasicHeader :=
  try_new 1 csid

/-- Modelled from the spec: see `BasicHeader.try_new`. -/
def begin_constant_length_message (csid : Nat) : Except ChunkStreamIdTryFromError BasicHeader :=
  try_new 2 csid

/-- Modelled from the spec: see `BasicHeader.try_new`. -/
def continue_message (csid : Nat) : Except ChunkStreamIdTryFromError BasicHeader :=
  try_new 3 csid

end BasicHeader

/-- `MessageHeader` from `header/message.rs`.  That file names the
variants `Type0`–`Type3`; `header/mod.rs` (which postdates it) matches on
the names used here.  The wire format is the deku derive of `message.rs`:
big-endian fields, 3-byte timestamp/delta and length, except the 4-byte
little-endian `message_stream_id` of type 0. -/
inductive MessageHeader
  | BeginOrRewindStream
      (timestamp : Nat) (message_length : Nat)
      (message_type_id : Nat) (message_stream_id : Nat)
  | BeginVariableLengthMessage
      (timestamp_delta : Nat) (message_length : Nat) (message_type_id : Nat)
  | BeginConstantLengthMessage (timestamp_delta : Nat)
  | ContinueMessage
deriving DecidableEq

namespace MessageHeader

/-- Derived `DekuRead` for `MessageHeader` with the chunk type as context
id: type 0 is 11 bytes, type 1 is 7, type 2 is 3, type 3 is empty. -/
def read (chunk_type : Nat) (input : List Bool) :
    Except DekuErr (List Bool × MessageHeader) :=
  match chunk_type with
  | 0 => do
    let (input, timestamp) ← readBE 24 input
    let (input, message_length) ← readBE 24 input
    let (input, message_type_id) ← readBE 8 input
    let (input, message_stream_id) ← readLE32 input
    .ok (input, .BeginOrRewindStream timestamp message_length message_type_id message_stream_id)
  | 1 => do
    let (input, timestamp_delta) ← readBE 24 input
    let (input, message_length) ← readBE 24 input
    let (input, message_type_id) ← readBE 8 input
    .ok (input, .BeginVariableLengthMessage timestamp_delta message_length message_type_id)
  | 2 => do
    let (input, timestamp_delta) ← readBE 24 input
    .ok (input, .BeginConstantLengthMessage timestamp_delta)
  | 3 => .ok (input, .ContinueMessage)
  | _ => .error .Parse

/-- Derived `DekuWrite` for `MessageHeader` (the chunk-type context id is
not itself written; the basic header carries it). -/
def write : MessageHeader → List Bool
  | .BeginOrRewindStream timestamp message_length message_type_id message_stream_id =>
      bytesToBits (be24Bytes timestamp ++ be24Bytes message_length
        ++ [message_type_id % 256] ++ le32Bytes message_stream_id)
  | .BeginVariableLengthMessage timestamp_delta message_length message_type_id =>
      bytesToBits (be24Bytes timestamp_delta ++ be24Bytes message_length
        ++ [message_type_id % 256])
  | .BeginConstantLengthMessage timestamp_delta =>
      bytesToBits (be24Bytes timestamp_delta)
  | .ContinueMessage => []

/-- `MessageHeader::has_extended_timestamp` from `message.rs` lines
110–119: true when the 3-byte timestamp (delta) field holds the escape
value `0xFFFFFF`; unconditionally false for type 3.  It takes no state
argument, although its caller `Header::read` in `header/mod.rs` passes the
chunk stream's `last_timestamp` (no such overload exists in the tree). -/
def has_extended_timestamp : MessageHeader → Bool
  | .BeginOrRewindStream timestamp _ _ _ => timestamp == 0xFFFFFF
  | .BeginVariableLengthMessage timestamp_delta _ _ => timestamp_delta == 0xFFFFFF
  | .BeginConstantLengthMessage timestamp_delta => timestamp_delta == 0xFFFFFF
  | .ContinueMessage => false

/-- Modelled from the spec: `MessageHeader::size` is called by
`Header::size` in `header/mod.rs` but its definition is absent from
`src/` (the refactored `message.rs` is missing).  Spec §4.3 table:
11 / 7 / 3 / 0 bytes for types 0 / 1 / 2 / 3. -/
def size : MessageHeader → Nat
  | .BeginOrRewindStream _ _ _ _ => 11
  | .BeginVariableLengthMessage _ _ _ => 7
  | .BeginConstantLengthMessage _ => 3
  | .ContinueMessage => 0

end MessageHeader

/-- `ChunkStreamInformation` from `chunk/mod.rs` (the per-chunk-stream
decoder state; note it stores no timestamp delta and no
extended-timestamp flag). -/
structure ChunkStreamInformation where
  last_timestamp : Nat
  maximum_chunk_size : Nat
  message_stream_id : Nat
  current_message : List Nat
  message_bytes_left_to_read : Nat
deriving DecidableEq

/-- `ChunkStreamMap` from `chunk/mod.rs` (a `DashMap` keyed by chunk
stream id), embedded as an association list. -/
def ChunkStreamMap : Type := List (Nat × ChunkStreamInformation)

/-- `map.get(&csid)`. -/
def ChunkStreamMap.get (map : ChunkStreamMap) (csid : Nat) : Option ChunkStreamInformation :=
  (List.find? (fun p => p.1 == csid) map).map (fun p => p.2)

/-- `Header` from `header/mod.rs`: basic header, message header, optional
extended timestamp. -/
structure Header where
  basic_header : BasicHeader
  message_header : MessageHeader
  extended_timestamp : Option Nat
deriving DecidableEq

/-- `Timestamp` from `header/mod.rs`. -/
inductive Timestamp
  | Delta (n : Nat)
  | Absolute (n : Nat)
deriving DecidableEq

/-- `Timestamp::into_inner`. -/
def Timestamp.into_inner : Timestamp → Nat
  | .Delta inner => inner
  | .Absolute inner => inner

namespace Header

/-- `Header::read` from `header/mod.rs` lines 22–53: basic header, message
header, then the extended timestamp when `has_extended_timestamp` says so.
The source fetches `last_timestamp` for the chunk stream from the map and
passes it to `has_extended_timestamp`; the only `has_extended_timestamp`
in the tree (`message.rs`) takes no such argument, so the fetched value
cannot influence the result and type-3 headers never read a suffix. -/
def read (input : List Bool) (ctx : ChunkStreamMap) :
    Except DekuErr (List Bool × Header) := do
  let (input, basic_header) ← BasicHeader.read input
  let (input, message_header) ← MessageHeader.read basic_header.chunk_type input
  let _last_timestamp :=
    ((ChunkStreamMap.get ctx basic_header.chunk_stream_id).map
      (fun info => info.last_timestamp)).getD 0
  let (input, extended_timestamp) ←
    if message_header.has_extended_timestamp then
      (readBE 32 input).map (fun p => (p.1, some p.2))
    else
      .ok (input, none)
  .ok (input, ⟨basic_header, message_header, extended_timestamp⟩)

/-- `Header::write` from `header/mod.rs` lines 55–62: basic header bits,
message header bits, then the optional big-endian extended timestamp. -/
def write (h : Header) : Except ChunkStreamIdTryFromError (List Bool) :=
  (BasicHeader.write h.basic_header).map (fun basicBits =>
    basicBits ++ MessageHeader.write h.message_header ++
      (match h.extended_timestamp with
       | some ts => bytesToBits (be32Bytes ts)
       | none => []))

/-- `Header::size` from `header/mod.rs` lines 64–73. -/
def size (h : Header) : Nat :=
  h.basic_header.size + h.message_header.size +
    (if h.extended_timestamp.isSome then 4 else 0)

/-- `Header::chunk_stream_id`. -/
def chunk_stream_id (h : Header) : Nat := h.basic_header.chunk_stream_id

/-- `Header::timestamp` from `header/mod.rs` lines 83–98.  For a type-3
(`ContinueMessage`) header the source returns
`Timestamp::Delta(map.get(csid).expect(..).last_timestamp)`; the `expect`
panic on a missing entry is modelled as `none`. -/
def timestamp? (h : Header) (map : ChunkStreamMap) : Option Timestamp :=
  match h.message_header with
  | .BeginOrRewindStream timestamp _ _ _ => some (.Absolute timestamp)
  | .BeginVariableLengthMessage timestamp_delta _ _ => some (.Delta timestamp_delta)
  | .BeginConstantLengthMessage timestamp_delta => some (.Delta timestamp_delta)
  | .ContinueMessage =>
      (ChunkStreamMap.get map h.basic_header.chunk_stream_id).map
        (fun info => .Delta info.last_timestamp)

end Header

/-- `ChunkHeaderError` from `header/mod.rs` lines 252–258. -/
inductive ChunkHeaderError
  | ChunkStreamIdError (e : ChunkStreamIdTryFromError)
  | MessageTooLong
deriving DecidableEq

namespace Header

/-- `Header::begin_or_rewind_stream` from `header/mod.rs` lines 155–186. -/
def begin_or_rewind_stream (chunk_stream_id timestamp message_length
    message_type_id message_stream_id : Nat) : Except ChunkHeaderError Header :=
  if 0xFFFFFF < message_length then .error .MessageTooLong
  else
    match BasicHeader.begin_or_rewind_stream chunk_stream_id with
    | .error e => .error (.ChunkStreamIdError e)
    | .ok basic_header =>
      let (timestamp, extended_timestamp) :=
        if 0xFFFFFF ≤ timestamp then (0xFFFFFF, some timestamp) else (timestamp, none)
      .ok ⟨basic_header,
           .BeginOrRewindStream timestamp message_length message_type_id message_stream_id,
           extended_timestamp⟩

/-- `Header::begin_variable_length_message` from `header/mod.rs` lines
189–218. -/
def begin_variable_length_message (chunk_stream_id timestamp_delta
    message_length message_type_id : Nat) : Except ChunkHeaderError Header :=
  if 0xFFFFFF < message_length then .error .MessageTooLong
  else
    match BasicHeader.begin_variable_length_message chunk_stream_id with
    | .error e => .error (.ChunkStreamIdError e)
    | .ok basic_header =>
      let (timestamp_delta, extended_timestamp) :=
        if 0xFFFFFF ≤ timestamp_delta then (0xFFFFFF, some timestamp_delta)
        else (timestamp_delta, none)
      .ok ⟨basic_header,
           .BeginVariableLengthMessage timestamp_delta message_length message_type_id,
           extended_timestamp⟩

/-- `Header::begin_constant_length_message` from `header/mod.rs` lines
221–240. -/
def begin_constant_length_message (chunk_stream_id timestamp_delta : Nat) :
    Except ChunkHeaderError Header :=
  match BasicHeader.begin_constant_length_message chunk_stream_id with
  | .error e => .error (.ChunkStreamIdError e)
  | .ok basic_header =>
    let (timestamp_delta, extended_timestamp) :=
      if 0xFFFFFF ≤ timestamp_delta then (0xFFFFFF, some timestamp_delta)
      else (timestamp_delta, none)
    .ok ⟨basic_header, .BeginConstantLengthMessage timestamp_delta, extended_timestamp⟩

/-- `Header::continue_message` from `header/mod.rs` lines 243–249. -/
def continue_message (chunk_stream_id : Nat) : Except ChunkHeaderError Header :=
  match BasicHeader.continue_message chunk_stream_id with
  | .error e => .error (.ChunkStreamIdError e)
  | .ok basic_header => .ok ⟨basic_header, .ContinueMessage, none⟩

end Header

/-- `RANDOM_BYTES` from `chunk/handshake.rs` line 10: the fixed 1528-byte
compile-time constant (a prose byte-string literal, not random data) sent
as the C1 random block and demanded back as the C2 echo. -/
def RANDOM_BYTES : List Nat := [
  65, 102, 116, 101, 114, 32, 97, 100, 100, 105, 110, 103, 32, 82, 117, 115, 116, 32, 115, 117,
  112, 112, 111, 114, 116, 32, 116, 111, 32, 76, 105, 110, 117, 120, 32, 107, 101, 114, 110, 101,
  108, 32, 105, 110, 32, 50, 48, 50, 49, 32, 76, 105, 110, 117, 120, 32, 114, 101, 112, 111,
  32, 104, 97, 115, 32, 98, 101, 101, 110, 32, 102, 108, 111, 111, 100, 101, 100, 32, 119, 105,
  116, 104, 32, 112, 97, 116, 99, 104, 101, 115, 32, 97, 110, 100, 32, 112, 117, 108, 108, 32,
  114, 101, 113, 117, 101, 115, 116, 115, 32, 102, 114, 111, 109, 32, 98, 114, 97, 118, 101, 32,
  82, 117, 115, 116, 97, 99, 101, 97, 110, 115, 32, 114, 101, 119, 114, 105, 116, 105, 110, 103,
  32, 99, 114, 105, 116, 105, 99, 97, 108, 32, 99, 111, 109, 112, 111, 110, 101, 110, 116, 115,
  32, 105, 110, 32, 82, 117, 115, 116, 32, 116, 111, 32, 101, 110, 115, 117, 114, 101, 32, 116,
  104, 101, 105, 114, 32, 115, 116, 97, 98, 105, 108, 105, 116, 121, 32, 97, 110, 100, 32, 109,
  101, 109, 111, 114, 121, 32, 115, 97, 102, 101, 116, 121, 32, 116, 104, 97, 116, 32, 67, 32,
  99, 111, 117, 108, 100, 32, 110, 101, 118, 101, 114, 32, 103, 117, 97, 114, 97, 110, 116, 101,
  101, 46, 32, 65, 102, 116, 101, 114, 32, 97, 32, 102, 101, 119, 32, 112, 97, 105, 110, 102,
  117, 108, 32, 121, 101, 97, 114, 115, 32, 111, 102, 32, 99, 111, 100, 101, 32, 114, 101, 118,
  105, 101, 119, 115, 32, 97, 110, 100, 32, 115, 97, 108, 116, 32, 99, 111, 109, 105, 110, 103,
  32, 102, 114, 111, 109, 32, 67, 32, 112, 114, 111, 103, 114, 97, 109, 109, 101, 114, 115, 32,
  108, 111, 115, 105, 110, 103, 32, 116, 104, 101, 105, 114, 32, 106, 111, 98, 115, 32, 108, 101,
  102, 116, 32, 97, 110, 100, 32, 114, 105, 103, 104, 116, 32, 119, 101, 32, 104, 97, 118, 101,
  32, 102, 105, 110, 97, 108, 108, 121, 32, 97, 99, 104, 105, 101, 118, 101, 100, 32, 97, 32,
  49, 48, 48, 37, 32, 82, 117, 115, 116, 32, 76, 105, 110, 117, 120, 32, 107, 101, 114, 110,
  101, 108, 46, 32, 78, 111, 116, 32, 97, 32, 115, 105, 110, 103, 108, 101, 32, 107, 101, 114,
  110, 101, 108, 32, 112, 97, 110, 105, 99, 32, 111, 114, 32, 99, 114, 97, 115, 104, 32, 104,
  97, 115, 32, 98, 101, 101, 110, 32, 114, 101, 112, 111, 114, 116, 101, 100, 32, 101, 118, 101,
  114, 32, 115, 105, 110, 99, 101, 46, 32, 73, 110, 32, 102, 97, 99, 116, 44, 32, 116, 104,
  101, 32, 107, 101, 114, 110, 101, 108, 32, 119, 97, 115, 32, 115, 111, 32, 115, 116, 97, 98,
  108, 101, 32, 116, 104, 97, 116, 32, 77, 105, 99, 114, 111, 115, 111, 102, 116, 32, 103, 97,
  118, 101, 32, 117, 112, 32, 97, 108, 108, 32, 116, 104, 101, 105, 114, 32, 101, 102, 102, 111,
  114, 116, 115, 32, 105, 110, 32, 87, 105, 110, 100, 111, 119, 115, 32, 97, 115, 32, 119, 101,
  32, 107, 110, 111, 119, 32, 105, 116, 44, 32, 114, 101, 119, 114, 111, 116, 101, 32, 105, 116,
  32, 105, 110, 32, 82, 117, 115, 116, 44, 32, 97, 110, 100, 32, 87, 105, 110, 100, 111, 119,
  115, 32, 98, 101, 99, 97, 109, 101, 32, 106, 117, 115, 116, 32, 97, 110, 111, 116, 104, 101,
  114, 32, 100, 105, 115, 116, 114, 111, 32, 105, 110, 32, 116, 104, 101, 32, 76, 105, 110, 117,
  120, 32, 101, 99, 111, 115, 121, 115, 116, 101, 109, 46, 32, 79, 116, 104, 101, 114, 32, 112,
  114, 111, 106, 101, 99, 116, 115, 32, 97, 110, 100, 32, 99, 111, 109, 112, 97, 110, 105, 101,
  115, 32, 115, 111, 111, 110, 32, 102, 111, 108, 108, 111, 119, 101, 100, 32, 116, 104, 101, 32,
  116, 114, 101, 110, 100, 32, 45, 32, 105, 102, 32, 121, 111, 117, 32, 105, 110, 115, 116, 97,
  108, 108, 32, 97, 110, 121, 32, 76, 105, 110, 117, 120, 32, 100, 105, 115, 116, 114, 111, 32,
  110, 111, 119, 97, 100, 97, 121, 115, 32, 105, 116, 32, 119, 111, 110, 39, 116, 32, 99, 111,
  109, 101, 32, 119, 105, 116, 104, 32, 103, 114, 101, 112, 44, 32, 100, 117, 32, 111, 114, 32,
  99, 97, 116, 32, 45, 32, 116, 104, 101, 114, 101, 32, 105, 115, 32, 111, 110, 108, 121, 32,
  114, 105, 112, 103, 114, 101, 112, 44, 32, 100, 117, 115, 116, 32, 97, 110, 100, 32, 98, 97,
  116, 46, 32, 68, 111, 32, 121, 111, 117, 32, 117, 115, 101, 32, 97, 32, 103, 114, 97, 112,
  104, 105, 99, 97, 108, 32, 105, 110, 116, 101, 114, 102, 97, 99, 101, 63, 32, 71, 111, 111,
  100, 32, 108, 117, 99, 107, 32, 117, 115, 105, 110, 103, 32, 100, 101, 112, 114, 101, 99, 97,
  116, 101, 100, 32, 112, 114, 111, 106, 101, 99, 116, 115, 32, 115, 117, 99, 104, 32, 97, 115,
  32, 87, 97, 121, 108, 97, 110, 100, 44, 32, 71, 110, 111, 109, 101, 32, 111, 114, 32, 75,
  68, 69, 32, 45, 32, 119, 97, 121, 108, 97, 110, 100, 45, 114, 115, 44, 32, 82, 115, 111,
  109, 101, 32, 97, 110, 100, 32, 82, 68, 69, 32, 105, 115, 32, 119, 104, 101, 114, 101, 32,
  105, 116, 39, 115, 32, 97, 108, 108, 32, 97, 116, 46, 32, 84, 104, 101, 32, 111, 110, 108,
  121, 32, 115, 101, 114, 105, 111, 117, 115, 32, 98, 114, 111, 119, 115, 101, 114, 32, 97, 118,
  97, 105, 108, 97, 98, 108, 101, 32, 105, 115, 32, 83, 101, 114, 118, 111, 32, 97, 110, 100,
  32, 105, 116, 32, 104, 111, 108, 100, 115, 32, 57, 56, 37, 32, 111, 102, 32, 116, 104, 101,
  32, 109, 97, 114, 107, 101, 116, 32, 115, 104, 97, 114, 101, 46, 32, 69, 118, 101, 114, 121,
  32, 110, 101, 119, 32, 103, 97, 109, 101, 32, 114, 101, 108, 101, 97, 115, 101, 100, 32, 116,
  111, 32, 116, 104, 101, 32, 109, 97, 114, 107, 101, 116, 44, 32, 105, 110, 99, 108, 117, 100,
  105, 110, 103, 32, 116, 104, 111, 115, 101, 32, 109, 97, 100, 101, 32, 98, 121, 32, 65, 65,
  65, 32, 100, 101, 118, 101, 108, 111, 112, 101, 114, 115, 44, 32, 105, 115, 32, 117, 115, 105,
  110, 103, 32, 116, 104, 101, 32, 109, 111, 115, 116, 32, 115, 116, 97, 98, 108, 101, 44, 32,
  102, 97, 115, 116, 32, 97, 110, 100, 32, 117, 115, 101, 114, 45, 102, 114, 105, 101, 110, 100,
  108, 121, 32, 103, 97, 109, 101, 32, 101, 110, 103, 105, 110, 101, 32, 45, 32, 66, 101, 118,
  121, 32, 118, 52, 46, 50, 48, 46, 32, 80, 101, 111, 112, 108, 101, 32, 108, 111, 118, 101,
  32, 116, 104, 101, 105, 114, 32, 115, 121, 115, 116, 101, 109, 32, 97, 110, 100, 32, 104, 111,
  119, 32, 115, 116, 97, 98, 108, 101, 44, 32, 115, 97, 102, 101, 32, 97, 110, 100, 32, 105,
  110, 99, 114, 101, 100, 105, 98, 108, 121, 32, 102, 97, 115, 116, 32, 105, 116, 32, 105, 115,
  46, 32, 80, 114, 111, 112, 114, 105, 101, 116, 97, 114, 121, 32, 115, 111, 102, 116, 119, 97,
  114, 101, 32, 105, 115, 32, 98, 97, 115, 105, 99, 97, 108, 108, 121, 32, 110, 111, 110, 45,
  101, 120, 105, 115, 116, 101, 110, 116, 32, 97, 116, 32, 116, 104, 105, 115, 32, 112, 111, 105,
  110, 116, 46, 32, 66, 121, 32, 116, 104, 101, 32, 121, 101, 97, 114, 32, 50, 48, 51, 53,
  32, 101, 118, 101, 114, 121, 32, 115, 105, 110, 103, 108, 101, 32, 112, 114, 105, 110, 116, 101,
  114, 44, 32, 108, 97, 112, 116, 111, 112, 44, 32, 105, 110, 100, 117, 115, 116, 114, 105, 97,
  108, 32, 114, 111, 98, 111, 116, 44, 32, 114, 111, 99, 107, 101, 116, 44, 32, 97, 117, 116,
  111, 110, 111, 109, 111, 117, 115, 32, 99, 97, 114, 44, 32, 115, 117, 98, 109, 97, 114, 105,
  110, 101, 44, 32, 115, 101, 120, 32, 116, 111, 121, 32, 105, 115, 32, 112, 111, 119, 101, 114,
  101, 100, 32, 98, 121, 32, 115, 111, 102, 116, 119, 97, 114, 101, 32, 119, 114, 105, 116, 116,
  101, 110, 32, 105, 110, 32, 82, 117, 115, 116, 46, 32, 65, 110, 100, 32, 116, 104, 101, 121,
  32, 110, 101, 118, 101, 114, 32, 99, 114, 97, 115, 104, 32, 111, 114, 32, 102, 97, 105, 108,
  46, 32, 84, 104, 101, 32, 119, 45]

/-- The handshake's failure modes.  The source reports all of them as
`io::Error` values with `ErrorKind::InvalidData` (distinct messages); the
spec names the version mismatch `UnsupportedVersion` and the zero-block /
echo mismatches `BadHandshake`.  `UnexpectedEof` stands for a transport
read that cannot be satisfied. -/
inductive HandshakeError
  | UnsupportedVersion
  | BadHandshake
  | UnexpectedEof
deriving DecidableEq

/-- `read_u8` on the inbound byte stream. -/
def readU8 : List Nat → Except HandshakeError (Nat × List Nat)
  | [] => .error .UnexpectedEof
  | b :: rest => .ok (b, rest)

/-- `read_u32` on the inbound byte stream (tokio reads big-endian). -/
def readU32 : List Nat → Except HandshakeError (Nat × List Nat)
  | b0 :: b1 :: b2 :: b3 :: rest =>
      .ok (((b0 * 256 + b1) * 256 + b2) * 256 + b3, rest)
  | _ => .error .UnexpectedEof

/-- `read_exact` of `n` bytes on the inbound byte stream. -/
def readExact (n : Nat) (l : List Nat) : Except HandshakeError (List Nat × List Nat) :=
  if l.length < n then .error .UnexpectedEof
  else .ok (l.take n, l.drop n)

/-- Wrapping `u32` subtraction: Rust's `a - b` on `u32` under the release
profile (debug builds panic when `a < b`). -/
def u32Sub (a b : Nat) : Nat := (a + (U32_MOD - b % U32_MOD)) % U32_MOD

namespace handshake

/-- The `send_0_1` block of `handshake` (`handshake.rs` lines 18–30):
the version byte 3, then the 4-byte big-endian local timestamp, then
`RANDOM_BYTES`.  Note: no 4-byte zero block is written. -/
def send_0_1 (timestamp : Nat) : List Nat :=
  3 :: (be32Bytes timestamp ++ RANDOM_BYTES)

/-- The `recv_0_1` block of `handshake` (`handshake.rs` lines 32–58):
read the version byte (must be 3), then a 4-byte field that must equal 0,
then the peer timestamp, then 1528 random bytes.  Note the order: the
zero check comes before the timestamp read. -/
def recv_0_1 (input : List Nat) :
    Except HandshakeError (Nat × List Nat × List Nat) :=
  match readU8 input with
  | .error e => .error e
  | .ok (requested_version, input) =>
    if requested_version ≠ 3 then
      .error .UnsupportedVersion
    else
      match readU32 input with
      | .error e => .error e
      | .ok (zeroField, input) =>
        if zeroField ≠ 0 then
          .error .BadHandshake
        else
          match readU32 input with
          | .error e => .error e
          | .ok (peer_timestamp, input) =>
            match readExact 1528 input with
            | .error e => .error e
            | .ok (random_bytes, input) =>
              .ok (peer_timestamp, random_bytes, input)

/-- The `send_2` block of `handshake` (`handshake.rs` lines 64–69): the
peer's timestamp, our `received_at`, and the echo of their random bytes. -/
def send_2 (their_timestamp received_at : Nat) (their_random_bytes : List Nat) : List Nat :=
  be32Bytes their_timestamp ++ be32Bytes received_at ++ their_random_bytes

/-- The `recv_2` block of `handshake` (`handshake.rs` lines 71–93): read
the echo of our timestamp (must match), then `they_received_at`, then the
1528-byte echo, which must equal `RANDOM_BYTES`. -/
def recv_2 (our_timestamp : Nat) (input : List Nat) :
    Except HandshakeError (Nat × List Nat) :=
  match readU32 input with
  | .error e => .error e
  | .ok (our_timestamp_echo, input) =>
    if our_timestamp_echo ≠ our_timestamp then
      .error .BadHandshake
    else
      match readU32 input with
      | .error e => .error e
      | .ok (they_received_at, input) =>
        match readExact 1528 input with
        | .error e => .error e
        | .ok (random_echo, input) =>
          if random_echo ≠ RANDOM_BYTES then
            .error .BadHandshake
          else
            .ok (they_received_at, input)

/-- The read-half of `handshake` end to end: `recv_0_1`, then `recv_2`,
then the returned latency estimate `they_received_at - their_timestamp`
(`handshake.rs` line 97), a wrapping `u32` subtraction under the release
profile. -/
def recvSide (our_timestamp : Nat) (input : List Nat) : Except HandshakeError Nat :=
  match recv_0_1 input with
  | .error e => .error e
  | .ok (their_timestamp, _their_random_bytes, rest) =>
    match recv_2 our_timestamp rest with
    | .error e => .error e
    | .ok (they_received_at, _) =>
      .ok (u32Sub they_received_at their_timestamp)

end handshake

/-- Outcome of one `try_write` call on the outbound socket
(`impls/tokio.rs`): `accepted n` bytes, a spurious-readiness
`WouldBlock`, or another I/O error. -/
inductive WriteAttempt
  | accepted (n : Nat)
  | wouldBlock
  | ioError
deriving DecidableEq

/-- Errors of the embedded `write_chunk` loop: `shortWrite` is the
`io::ErrorKind::UnexpectedEof` ("Expected to write {} bytes…") error built
for `Ordering::Less`, `transport` any other propagated I/O error. -/
inductive WriteChunkError
  | shortWrite
  | transport
deriving DecidableEq

/-- The retry loop of `write_chunk` (`impls/tokio.rs` lines 85–116) over a
trace of `try_write` outcomes for a `num_bytes`-byte encoded chunk:
`WouldBlock` means `continue`; `accepted n` with `n < num_bytes`
(`Ordering::Less`) returns the short-write error; `n = num_bytes` returns
success.  `none` models a loop still waiting for the socket (trace
exhausted) and the `unreachable!()` arm (`n > num_bytes`). -/
def write_chunk_loop (num_bytes : Nat) : List WriteAttempt → Option (Except WriteChunkError Unit)
  | [] => none
  | .accepted n :: _ =>
      if n < num_bytes then some (.error .shortWrite)
      else if n = num_bytes then some (.ok ())
      else none
  | .wouldBlock :: rest => write_chunk_loop num_bytes rest
  | .ioError :: _ => some (.error .transport)

/-- The spec's happy-path scenario uses an arbitrary 1528-byte peer random
block `P`; a concrete choice for the closed statements below. -/
def scenarioPeerRandom : List Nat := List.replicate 1528 9

/-- The set of header sizes the spec's size law claims
(`h.size() ∈ {1, 2, 3, 4, 8, 11, 12, 15, 16, 18}`), stated from the
spec's words for comparison with the code. -/
def specClaimedSizes : List Nat := [1, 2, 3, 4, 8, 11, 12, 15, 16, 18]

/-- The header sizes actually reachable through the public constructors:
basic size ∈ {1, 2, 3}, message size ∈ {0, 3, 7, 11} (type 3 never has an
extended timestamp when constructed), extended timestamp ∈ {0, 4}. -/
def allowedSizes : List Nat := [1, 2, 3, 4, 5, 6, 8, 9, 10, 12, 13, 14, 16, 17, 18]

set_option maxRecDepth 100000 in
/-- The random block constant is exactly 1528 bytes long. -/
theorem RANDOM_BYTES_length : RANDOM_BYTES.length = 1528 := by rfl

/-- `scenarioPeerRandom` is a well-formed 1528-byte block. -/
theorem scenarioPeerRandom_length : scenarioPeerRandom.length = 1528 :=
  List.length_replicate 1528 9

/-- Reading a `u32` back from its four big-endian bytes. -/
theorem readU32_be32 (n : Nat) (h : n < U32_MOD) (rest : List Nat) :
    readU32 (be32Bytes n ++ rest) = .ok (n, rest) := by
  simp only [be32Bytes, List.cons_append, List.nil_append, readU32, Except.ok.injEq,
    Prod.mk.injEq, and_true]
  simp only [U32_MOD] at h
  omega

/-- `read_exact` consumes exactly the prefix of the right length. -/
theorem readExact_append (n : Nat) (l rest : List Nat) (h : l.length = n) :
    readExact n (l ++ rest) = .ok (l, rest) := by
  unfold readExact
  rw [List.length_append, if_neg (by omega)]
  subst h
  rw [List.take_left, List.drop_left]

/-- `read_exact` of the whole remaining input. -/
theorem readExact_all (n : Nat) (l : List Nat) (h : l.length = n) :
    readExact n l = .ok (l, []) := by
  have := readExact_append n l [] h
  simpa using this

theorem natBitsLE_length (w n : Nat) : (natBitsLE w n).length = w := by
  induction w generalizing n with
  | zero => rfl
  | succ w ih => simp [natBitsLE, ih]

theorem natToBits_length (w n : Nat) : (natToBits w n).length = w := by
  simp [natToBits, natBitsLE_length]

theorem byteToBits_length (b : Nat) : (byteToBits b).length = 8 := by
  simp [byteToBits, natToBits_length]

theorem bytesToBits_length (bs : List Nat) : (bytesToBits bs).length = 8 * bs.length := by
  induction bs with
  | nil => rfl
  | cons b rest ih =>
    simp [bytesToBits, byteToBits_length] at ih ⊢
    omega

/-- The one-byte arm of `ChunkStreamId::write`. -/
theorem writeBytes_small (csid : Nat) (h : 2 ≤ csid ∧ csid ≤ 63) :
    ChunkStreamId.writeBytes csid = .ok [csid % 256] := by
  unfold ChunkStreamId.writeBytes
  rw [if_pos h]

/-- The two-byte arm of `ChunkStreamId::write`. -/
theorem writeBytes_mid (csid : Nat) (h : 64 ≤ csid ∧ csid ≤ 319) :
    ChunkStreamId.writeBytes csid = .ok [0, (csid - 64) % 256] := by
  unfold ChunkStreamId.writeBytes
  rw [if_neg (by omega), if_pos h]

/-- The three-byte arm of `ChunkStreamId::write`. -/
theorem writeBytes_large (csid : Nat) (h : 320 ≤ csid ∧ csid ≤ 65599) :
    ChunkStreamId.writeBytes csid = .ok
      [1, (csid % 256 + (U32_MOD - 64)) % U32_MOD % 256, (csid - csid % 256) / 256 % 256] := by
  unfold ChunkStreamId.writeBytes
  rw [if_neg (by omega), if_neg (by omega), if_pos h]

/-- For every encodable chunk stream id the bit output of
`ChunkStreamId::write` plus the 2 type bits spans exactly `size` bytes. -/
theorem csid_write_length (bh : BasicHeader) (h2 : 2 ≤ bh.chunk_stream_id)
    (h65 : bh.chunk_stream_id ≤ 65599) :
    ∃ bits, ChunkStreamId.write bh.chunk_stream_id = .ok bits ∧
      bits.length + 2 = 8 * bh.size := by
  generalize hc : bh.chunk_stream_id = csid at *
  unfold BasicHeader.size
  rw [hc]
  rcases Nat.lt_or_ge csid 64 with hr | hr
  · rw [ChunkStreamId.write, writeBytes_small csid ⟨h2, by omega⟩]
    refine ⟨_, rfl, ?_⟩
    simp [bytesToBits_length, if_pos (show csid ≤ 63 by omega)]
  · rcases Nat.lt_or_ge csid 320 with hr2 | hr2
    · rw [ChunkStreamId.write, writeBytes_mid csid ⟨by omega, by omega⟩]
      refine ⟨_, rfl, ?_⟩
      rw [if_neg (by omega), if_pos (by omega)]
      simp [bytesToBits_length]
    · rw [ChunkStreamId.write, writeBytes_large csid ⟨by omega, by omega⟩]
      refine ⟨_, rfl, ?_⟩
      rw [if_neg (by omega), if_neg (by omega)]
      simp [bytesToBits_length]

/-- The message-header encoding spans exactly `size` bytes. -/
theorem message_write_length (mh : MessageHeader) :
    (MessageHeader.write mh).length = 8 * mh.size := by
  cases mh <;> simp [MessageHeader.write, MessageHeader.size, bytesToBits_length,
    be24Bytes, le32Bytes]

/-- `Header::write` succeeds on every valid chunk stream id and its bit
length is eight times `Header::size`. -/
theorem header_write_length (h : Header)
    (h2 : 2 ≤ h.basic_header.chunk_stream_id)
    (h65 : h.basic_header.chunk_stream_id ≤ 65599) :
    (Header.write h).map List.length = .ok (8 * h.size) := by
  obtain ⟨bits, hw, hlen⟩ := csid_write_length h.basic_header h2 h65
  rw [Header.write, BasicHeader.write, hw]
  cases hext : h.extended_timestamp with
  | none =>
    simp [Except.map, natToBits_length, message_write_length, Header.size, hext,
      bytesToBits_length]
    omega
  | some ts =>
    simp [Except.map, natToBits_length, message_write_length, Header.size, hext,
      bytesToBits_length, be32Bytes]
    omega

/-- The basic-header size is always 1, 2 or 3 bytes. -/
theorem basic_size_cases (bh : BasicHeader) :
    bh.size = 1 ∨ bh.size = 2 ∨ bh.size = 3 := by
  unfold BasicHeader.size
  split_ifs <;> simp

/-- Facts extracted from a successful `BasicHeader` constructor run. -/
theorem try_new_facts (t csid : Nat) (bh : BasicHeader)
    (h : BasicHeader.try_new t csid = .ok bh) :
    bh.chunk_stream_id = csid ∧ 2 ≤ csid ∧ csid ≤ 65599 := by
  unfold BasicHeader.try_new at h
  by_cases h0 : csid = 0 ∨ csid = 1
  · rw [if_pos h0] at h
    exact absurd h (by simp)
  · by_cases h1 : 65599 < csid
    · rw [if_neg h0, if_pos h1] at h
      exact absurd h (by simp)
    · rw [if_neg h0, if_neg h1] at h
      injection h with h2
      subst h2
      simp only [not_or] at h0
      exact ⟨rfl, by omega, by omega⟩

/-- Facts extracted from a successful `Header::begin_or_rewind_stream`. -/
theorem born_facts (csid ts ml mtid msid : Nat) (hh : Header)
    (h : Header.begin_or_rewind_stream csid ts ml mtid msid = .ok hh) :
    2 ≤ hh.basic_header.chunk_stream_id ∧ hh.basic_header.chunk_stream_id ≤ 65599 ∧
      hh.message_header.size = 11 := by
  unfold Header.begin_or_rewind_stream at h
  split at h
  · simp at h
  · split at h
    · simp at h
    · rename_i bh heq
      obtain ⟨hcs, h2, h65⟩ := try_new_facts 0 csid bh heq
      by_cases hts : 0xFFFFFF ≤ ts <;>
        simp [hts, Except.ok.injEq] at h <;> subst h <;>
        simp [MessageHeader.size, hcs, h2, h65]

/-- Facts extracted from a successful `Header::begin_variable_length_message`. -/
theorem bvlm_facts (csid d ml mtid : Nat) (hh : Header)
    (h : Header.begin_variable_length_message csid d ml mtid = .ok hh) :
    2 ≤ hh.basic_header.chunk_stream_id ∧ hh.basic_header.chunk_stream_id ≤ 65599 ∧
      hh.message_header.size = 7 := by
  unfold Header.begin_variable_length_message at h
  split at h
  · simp at h
  · split at h
    · simp at h
    · rename_i bh heq
      obtain ⟨hcs, h2, h65⟩ := try_new_facts 1 csid bh heq
      by_cases hts : 0xFFFFFF ≤ d <;>
        simp [hts, Except.ok.injEq] at h <;> subst h <;>
        simp [MessageHeader.size, hcs, h2, h65]

/-- Facts extracted from a successful `Header::begin_constant_length_message`. -/
theorem bclm_facts (csid d : Nat) (hh : Header)
    (h : Header.begin_constant_length_message csid d = .ok hh) :
    2 ≤ hh.basic_header.chunk_stream_id ∧ hh.basic_header.chunk_stream_id ≤ 65599 ∧
      hh.message_header.size = 3 := by
  unfold Header.begin_constant_length_message at h
  split at h
  · simp at h
  · rename_i bh heq
    obtain ⟨hcs, h2, h65⟩ := try_new_facts 2 csid bh heq
    by_cases hts : 0xFFFFFF ≤ d <;>
      simp [hts, Except.ok.injEq] at h <;> subst h <;>
      simp [MessageHeader.size, hcs, h2, h65]

/-- Facts extracted from a successful `Header::continue_message`. -/
theorem cont_facts (csid : Nat) (hh : Header)
    (h : Header.continue_message csid = .ok hh) :
    2 ≤ hh.basic_header.chunk_stream_id ∧ hh.basic_header.chunk_stream_id ≤ 65599 ∧
      hh.message_header.size = 0 ∧ hh.extended_timestamp = none := by
  unfold Header.continue_message at h
  split at h
  · simp at h
  · rename_i bh heq
    obtain ⟨hcs, h2, h65⟩ := try_new_facts 3 csid bh heq
    simp only [Except.ok.injEq] at h
    subst h
    simp [MessageHeader.size, hcs, h2, h65]

/-- Any header whose message-header size is one of the constructor-reachable
values (with no extended timestamp when the message header is empty) has a
total size in `allowedSizes`, at most 18. -/
theorem size_mem (hh : Header) (hms : hh.message_header.size = 11 ∨
    hh.message_header.size = 7 ∨ hh.message_header.size = 3 ∨
    (hh.message_header.size = 0 ∧ hh.extended_timestamp = none)) :
    hh.size ∈ allowedSizes ∧ hh.size ≤ 18 := by
  have hb := basic_size_cases hh.basic_header
  unfold Header.size
  rcases hex : hh.extended_timestamp with _ | v <;>
    simp only [hex, Option.isSome_none, Option.isSome_some, Bool.false_eq_true,
      if_false, if_true, allowedSizes, List.mem_cons, List.mem_singleton,
      List.not_mem_nil, or_false]
  · constructor <;> rcases hms with h | h | h | ⟨h, hn⟩ <;> rcases hb with hb | hb | hb <;>
      rw [h, hb] <;> decide
  · constructor <;> rcases hms with h | h | h | ⟨h, hn⟩ <;>
      first
      | (rw [hex] at hn; cases hn)
      | (rcases hb with hb | hb | hb <;> rw [h, hb] <;> decide)

set_option maxRecDepth 8000 in
/-- C1: the claimed CSID bijection `decode_csid(encode_csid(csid)) = csid`
on [2, 65599] fails on the code: encoding 64 yields bytes `00 00`, which
`ChunkStreamId::read` misparses through its `leading_zeros` dispatch as the
one-byte form with csid 0; encoding 512 underflows `(remainder - 64)` and
produces bytes decoding to 768.  The error halves of the claim do hold:
csid 0 and 1 are rejected with `ReservedCsid` and csid 65600 with
`CsidTooLarge`. -/
theorem csid_codec_roundtrip_violation :
    ChunkStreamId.decodeEncode 64 = some 0 ∧
    ChunkStreamId.decodeEncode 512 = some 768 ∧
    ChunkStreamId.decodeEncode 65599 = some 319 ∧
    ChunkStreamId.writeBytes 0 = .error .ReservedCsid ∧
    ChunkStreamId.writeBytes 1 = .error .ReservedCsid ∧
    ChunkStreamId.writeBytes 65600 = .error .CsidTooLarge := by
  decide

set_option maxRecDepth 8000 in
/-- C2: the handshake's C1 phase does not match the claimed wire layout.
The send side writes version ‖ timestamp ‖ 1528 random bytes — 1533 bytes
in all, with no 4-byte zero block (bytes 5–8 of the output for timestamp 1
are `41 66 74 65`, the start of the random block, not zeros).  The receive
side parses the must-be-zero field *before* the timestamp, so a C1 payload
in the claimed layout (timestamp 1 followed by a zero block) is rejected
with the bad-handshake error. -/
theorem handshake_c1_wire_layout_violation :
    (handshake.send_0_1 1).length = 1533 ∧
    (handshake.send_0_1 1).take 9 = [3, 0, 0, 0, 1, 65, 102, 116, 101] ∧
    handshake.recv_0_1 (3 :: (be32Bytes 1 ++ (be32Bytes 0 ++ List.replicate 1528 7)))
      = .error .BadHandshake := by
  refine ⟨?_, ?_, ?_⟩
  · simp [handshake.send_0_1, be32Bytes, RANDOM_BYTES_length]
  · rfl
  · rfl

set_option maxRecDepth 8000 in
/-- C3: a type-3 header never carries the extended-timestamp suffix in the
code, whatever the per-chunk-stream state says:
`MessageHeader::has_extended_timestamp` returns `false` for type 3
unconditionally, so `Header::read` on a type-3 chunk (here `C3` on chunk
stream 3, whose state holds `last_timestamp = 0x01000000` from a preceding
escaped header) leaves a following `01 00 00 00` suffix unconsumed and
returns `extended_timestamp = none`, against the claimed iff rule. -/
theorem type3_extended_timestamp_suffix_violation :
    MessageHeader.has_extended_timestamp MessageHeader.ContinueMessage = false ∧
    Header.read (bytesToBits [0xC3] ++ bytesToBits (be32Bytes 0x01000000))
        [(3, ⟨0x01000000, 128, 1, [], 0⟩)]
      = .ok (bytesToBits (be32Bytes 0x01000000), ⟨⟨3, 3⟩, .ContinueMessage, none⟩) := by
  exact ⟨rfl, by decide⟩

set_option maxRecDepth 8000 in
/-- C4: for a type-3 chunk the code returns
`Timestamp::Delta(state.last_timestamp)` — the previous *absolute*
timestamp replayed as a delta — rather than the previous delta; the state
(`ChunkStreamInformation`) stores no delta at all.  With
`last_timestamp = 1000` the resulting effective timestamp is
1000 + 1000 = 2000 instead of the claimed
`last_timestamp + last_delta`. -/
theorem type3_timestamp_reconstruction_violation :
    Header.timestamp? ⟨⟨3, 5⟩, .ContinueMessage, none⟩ [(5, ⟨1000, 128, 1, [], 0⟩)]
      = some (Timestamp.Delta 1000) := by
  decide

set_option maxRecDepth 8000 in
/-- C5: the header round-trip `decode(encode(h), prior_state) = h` fails
for constructed headers: `continue_message 64` builds the type-3 header on
chunk stream 64, whose encoding is the bits `11` followed by fourteen zero
bits, and decoding those bits returns a header on chunk stream 0 (with one
zero byte left over), not the original header. -/
theorem header_roundtrip_violation :
    Header.continue_message 64 = .ok ⟨⟨3, 64⟩, .ContinueMessage, none⟩ ∧
    Header.write ⟨⟨3, 64⟩, .ContinueMessage, none⟩
      = .ok (natToBits 2 3 ++ List.replicate 14 false) ∧
    Header.read (natToBits 2 3 ++ List.replicate 14 false) []
      = .ok (List.replicate 8 false, ⟨⟨3, 0⟩, .ContinueMessage, none⟩) := by
  decide

/-- C6 counterexample: on the spec's literal happy-path bytes — S1 carrying
the peer timestamp `00 00 00 02` first and the zero block second — the
handshake read side fails with the bad-handshake error instead of
establishing the connection with latency estimate 0, because the code
checks the first 4-byte field against zero. -/
theorem handshake_scenario_literal_rejected :
    handshake.recvSide 1 (3 :: (be32Bytes 2 ++ (be32Bytes 0 ++ (scenarioPeerRandom
      ++ (be32Bytes 1 ++ (be32Bytes 2 ++ RANDOM_BYTES)))))) = .error .BadHandshake := by
  rfl

/-- C6 (amended): the returned latency estimate is the wrapping (modulo
2^32) subtraction `they_received_at - their_ts` for all `u32` values, and
the happy-path scenario succeeds with estimate 0 once S1 is laid out the
way the code parses it (zero field first, timestamp `00 00 00 02` second);
S2 echoes our timestamp 1, carries `they_received_at = 2` and the random
block. -/
theorem handshake_latency_modular :
    (∀ a b : Nat, a < U32_MOD → b < U32_MOD →
      (u32Sub a b : Int) = ((a : Int) - (b : Int)) % (U32_MOD : Int)) ∧
    handshake.recvSide 1 (3 :: (be32Bytes 0 ++ (be32Bytes 2 ++ (scenarioPeerRandom
      ++ (be32Bytes 1 ++ (be32Bytes 2 ++ RANDOM_BYTES)))))) = .ok 0 := by
  constructor
  · intro a b ha hb
    simp only [u32Sub, U32_MOD] at *
    omega
  · simp [handshake.recvSide, handshake.recv_0_1, handshake.recv_2, readU8,
      readU32_be32 0 (by decide), readU32_be32 1 (by decide), readU32_be32 2 (by decide),
      readExact_append 1528 scenarioPeerRandom _ scenarioPeerRandom_length,
      readExact_all 1528 RANDOM_BYTES RANDOM_BYTES_length,
      u32Sub, U32_MOD]

/-- C6 witness: the wrapping-subtraction law applied at `0 - 1`. -/
theorem handshake_latency_modular_witness :
    (u32Sub 0 1 : Int) = ((0 : Int) - (1 : Int)) % (U32_MOD : Int) :=
  handshake_latency_modular.1 0 1 (by decide) (by decide)

/-- C7 counterexample: `begin_constant_length_message 64 0` builds a
header of size 2 + 3 + 0 = 5 bytes (two-byte basic header, type-2 message
header, no extended timestamp), and 5 is not in the spec's claimed size
set {1, 2, 3, 4, 8, 11, 12, 15, 16, 18}. -/
theorem header_size_spec_set_violation :
    (Header.begin_constant_length_message 64 0).map Header.size = .ok 5 ∧
    ¬ (5 ∈ specClaimedSizes) := by
  decide

/-- C7 (amended): for every header built by one of the four public
constructors, encoding succeeds and its bit length is exactly
`8 * h.size()` (i.e. the encoded byte length equals `h.size()`, which is
`basic_size + message_size + (4 if extended_timestamp else 0)`), and
`h.size()` lies in {1, 2, 3, 4, 5, 6, 8, 9, 10, 12, 13, 14, 16, 17, 18},
with maximum 18 bytes. -/
theorem header_size_law (csid ts d ml mtid msid : Nat) (hh : Header)
    (hc : Header.begin_or_rewind_stream csid ts ml mtid msid = .ok hh ∨
      Header.begin_variable_length_message csid d ml mtid = .ok hh ∨
      Header.begin_constant_length_message csid d = .ok hh ∨
      Header.continue_message csid = .ok hh) :
    (Header.write hh).map List.length = .ok (8 * hh.size) ∧
      hh.size ∈ allowedSizes ∧ hh.size ≤ 18 := by
  rcases hc with hc | hc | hc | hc
  · obtain ⟨h2, h65, hms⟩ := born_facts csid ts ml mtid msid hh hc
    have hm := size_mem hh (Or.inl hms)
    exact ⟨header_write_length hh h2 h65, hm.1, hm.2⟩
  · obtain ⟨h2, h65, hms⟩ := bvlm_facts csid d ml mtid hh hc
    have hm := size_mem hh (Or.inr (Or.inl hms))
    exact ⟨header_write_length hh h2 h65, hm.1, hm.2⟩
  · obtain ⟨h2, h65, hms⟩ := bclm_facts csid d hh hc
    have hm := size_mem hh (Or.inr (Or.inr (Or.inl hms)))
    exact ⟨header_write_length hh h2 h65, hm.1, hm.2⟩
  · obtain ⟨h2, h65, hms, hex⟩ := cont_facts csid hh hc
    have hm := size_mem hh (Or.inr (Or.inr (Or.inr ⟨hms, hex⟩)))
    exact ⟨header_write_length hh h2 h65, hm.1, hm.2⟩

/-- C7 witness: the size law applied to the type-3 header built by
`continue_message 2`. -/
theorem header_size_law_witness :
    (Header.write ⟨⟨3, 2⟩, MessageHeader.ContinueMessage, none⟩).map List.length
      = .ok (8 * Header.size ⟨⟨3, 2⟩, MessageHeader.ContinueMessage, none⟩) ∧
    Header.size ⟨⟨3, 2⟩, MessageHeader.ContinueMessage, none⟩ ∈ allowedSizes ∧
    Header.size ⟨⟨3, 2⟩, MessageHeader.ContinueMessage, none⟩ ≤ 18 :=
  header_size_law 2 0 0 0 0 0 ⟨⟨3, 2⟩, .ContinueMessage, none⟩
    (Or.inr (Or.inr (Or.inr (by decide))))

/-- C8 counterexample: a short write is not retried — when `try_write`
accepts 5 of 10 bytes, `write_chunk` returns the short-write
(`UnexpectedEof`) error, so it does return an error for one of the two
claimed-absorbed conditions. -/
theorem write_chunk_short_write_is_error :
    write_chunk_loop 10 [WriteAttempt.accepted 5] = some (.error .shortWrite) := by
  decide

/-- C8 (amended): `write_chunk` retries `WouldBlock` (it is absorbed and
not fatal), but a short write is an error: fewer bytes accepted than the
chunk's full encoding yields the short-write error, a full write succeeds,
and any other I/O error propagates.  Only `WouldBlock` is absorbed
locally. -/
theorem write_chunk_absorbs_would_block (num_bytes n : Nat) (rest : List WriteAttempt) :
    write_chunk_loop num_bytes (WriteAttempt.wouldBlock :: rest)
      = write_chunk_loop num_bytes rest ∧
    (n < num_bytes →
      write_chunk_loop num_bytes (WriteAttempt.accepted n :: rest)
        = some (.error .shortWrite)) ∧
    write_chunk_loop num_bytes (WriteAttempt.accepted num_bytes :: rest)
      = some (.ok ()) ∧
    write_chunk_loop num_bytes (WriteAttempt.ioError :: rest)
      = some (.error .transport) := by
  refine ⟨rfl, fun h => ?_, ?_, rfl⟩
  · unfold write_chunk_loop
    rw [if_pos h]
  · unfold write_chunk_loop
    rw [if_neg (lt_irrefl num_bytes), if_pos rfl]

/-- C8 witness: the short-write arm applied at 3 accepted of 7 bytes. -/
theorem write_chunk_absorbs_would_block_witness :
    write_chunk_loop 7 (WriteAttempt.accepted 3 :: [WriteAttempt.ioError])
      = some (.error .shortWrite) :=
  (write_chunk_absorbs_would_block 7 3 [WriteAttempt.ioError]).2.1 (by decide)

/-- C9: constructing an outbound header for a message longer than 0xFFFFFF
bytes fails with `MessageTooLong` (checked before anything else, in both
length-carrying constructors), and no constructor ever reports
`MessageTooLong` for a length of at most 0xFFFFFF.  The constructors are
pure: no connection state exists to be disturbed. -/
theorem message_too_long_law (csid ts d ml mtid msid : Nat) :
    (0xFFFFFF < ml →
      Header.begin_or_rewind_stream csid ts ml mtid msid = .error .MessageTooLong ∧
      Header.begin_variable_length_message csid d ml mtid = .error .MessageTooLong) ∧
    (ml ≤ 0xFFFFFF →
      Header.begin_or_rewind_stream csid ts ml mtid msid ≠ .error .MessageTooLong ∧
      Header.begin_variable_length_message csid d ml mtid ≠ .error .MessageTooLong ∧
      Header.begin_constant_length_message csid d ≠ .error .MessageTooLong ∧
      Header.continue_message csid ≠ .error .MessageTooLong) := by
  constructor
  · intro hml
    constructor
    · unfold Header.begin_or_rewind_stream
      rw [if_pos hml]
    · unfold Header.begin_variable_length_message
      rw [if_pos hml]
  · intro hml
    refine ⟨?_, ?_, ?_, ?_⟩
    · unfold Header.begin_or_rewind_stream BasicHeader.begin_or_rewind_stream
      rw [if_neg (by omega)]
      cases htn : BasicHeader.try_new 0 csid <;>
        by_cases hts : 0xFFFFFF ≤ ts <;> simp [hts]
    · unfold Header.begin_variable_length_message BasicHeader.begin_variable_length_message
      rw [if_neg (by omega)]
      cases htn : BasicHeader.try_new 1 csid <;>
        by_cases hts : 0xFFFFFF ≤ d <;> simp [hts]
    · unfold Header.begin_constant_length_message BasicHeader.begin_constant_length_message
      cases htn : BasicHeader.try_new 2 csid <;>
        by_cases hts : 0xFFFFFF ≤ d <;> simp [hts]
    · unfold Header.continue_message BasicHeader.continue_message
      cases htn : BasicHeader.try_new 3 csid <;> simp

/-- C9 witness: the law applied at message length 0x1000000 (rejected) and
at `continue_message` (never rejected for length). -/
theorem message_too_long_law_witness :
    Header.begin_or_rewind_stream 5 0 16777216 8 1 = .error .MessageTooLong ∧
    Header.continue_message 5 ≠ .error .MessageTooLong :=
  ⟨((message_too_long_law 5 0 0 16777216 8 1).1 (by decide)).1,
   ((message_too_long_law 5 0 0 100 8 1).2 (by decide)).2.2.2⟩

/-- C10: the 1528-byte handshake block is the fixed compile-time constant
`RANDOM_BYTES`: every C1 send emits exactly the version byte, the 4-byte
timestamp and this constant (so equal clock values give byte-for-byte
identical output), and the C2 echo verification accepts a well-formed
phase-2 message if and only if the echoed 1528 bytes equal the constant. -/
theorem random_block_constant_law :
    RANDOM_BYTES.length = 1528 ∧
    (∀ ts : Nat, handshake.send_0_1 ts = 3 :: (be32Bytes ts ++ RANDOM_BYTES)) ∧
    (∀ (ts tra : Nat) (echo : List Nat), ts < U32_MOD → tra < U32_MOD →
      echo.length = 1528 →
      (handshake.recv_2 ts (be32Bytes ts ++ (be32Bytes tra ++ echo)) = .ok (tra, [])
        ↔ echo = RANDOM_BYTES)) := by
  refine ⟨RANDOM_BYTES_length, fun ts => rfl, fun ts tra echo hts htra hlen => ?_⟩
  simp only [handshake.recv_2, readU32_be32 ts hts, readU32_be32 tra htra,
    readExact_all 1528 echo hlen]
  by_cases he : echo = RANDOM_BYTES <;> simp [he]

/-- C10 witness: the echo check applied to the constant itself. -/
theorem random_block_constant_law_witness :
    handshake.recv_2 0 (be32Bytes 0 ++ (be32Bytes 0 ++ RANDOM_BYTES)) = .ok (0, []) :=
  (random_block_constant_law.2.2 0 0 RANDOM_BYTES (by decide) (by decide)
    RANDOM_BYTES_length).mpr rfl
